import Mathlib

/-!
Verification of the Shipping Quote Calculator of AdventureSoftware/ai-workshop.

The repository ships the calculator as a test-first exercise: the test suites
(`src/nodejs/src/exercises/shipping-calculator.ts` and its C# twin) fix the
contract, while the bodies of `calculateShipping` / `CalculateShippingAsync`
and most helpers are `Not implemented` stubs.  The implemented pieces of the
calculator are the C# helper `GetServiceDetails` (service label and estimated
days) and `getCurrentFuelSurchargeRate` (returns 0.15).  We therefore embed:

* the data model (`ShippingRequest`, `ShippingQuote`, `ValidationResult`)
  from the source type declarations;
* `GetServiceDetails` and `getCurrentFuelSurchargeRate` directly from source;
* `calculateShipping` modelled from the spec (business rules of ApiSchema.md,
  the test specifications, and spec.md §4.1), since the body is missing
  from the sources.

Weights and dimensions are decimals in both tracks; we use `ℚ`.  Monetary
amounts are integer cents (`ℤ`).  `round` is JavaScript `Math.round` on the
non-negative values arising here: `⌊x + 1/2⌋`.
-/

/-- Dimensions of a package in centimetres (source: `ShippingRequest.dimensions`
in shipping-calculator.ts; record `Dimensions` in the C# track). -/
structure Dimensions where
  length : ℚ
  width : ℚ
  height : ℚ
deriving DecidableEq

/-- The three-value service enumeration (source: the TS union
`'standard' | 'express' | 'overnight'` and the C# enum `ServiceType`). -/
inductive ServiceType where
  | standard
  | express
  | overnight
deriving DecidableEq

/-- Shipping request (source: `ShippingRequest` in shipping-calculator.ts). -/
structure ShippingRequest where
  weight : ℚ
  dimensions : Dimensions
  origin : String
  destination : String
  serviceType : ServiceType
  declaredValue : ℤ
deriving DecidableEq

/-- Shipping quote (source: `ShippingQuote` in shipping-calculator.ts); all
monetary fields in cents. -/
structure ShippingQuote where
  baseRate : ℤ
  fuelSurcharge : ℤ
  insuranceFee : ℤ
  totalCost : ℤ
  estimatedDays : ℤ
  serviceLevel : String
deriving DecidableEq

/-- The result tagged union (source: the `ValidationResult<T>` pattern the
tests assert against: success carries data, failure carries an error string). -/
inductive ValidationResult (α : Type) where
  | ok (data : α)
  | fail (error : String)
deriving DecidableEq

/-- Rounding to the nearest cent as JavaScript `Math.round` does on the
non-negative values arising here: `⌊x + 1/2⌋`. -/
def roundRat (x : ℚ) : ℤ := ⌊x + 1/2⌋

/-- Dimensional weight `(L × W × H) / 5000` in kilograms (source: the formula
stated verbatim on the `calculateDimensionalWeight` helper and in
ApiSchema.md "Dimensional Weight"). -/
def calculateDimensionalWeight (d : Dimensions) : ℚ :=
  d.length * d.width * d.height / 5000

/-- US ZIP format `^\d{5}(-\d{4})?$` (source: the `validatePostalCode`
helper's documented contract: 5 digits or 5+4 format). -/
def validatePostalCode (s : String) : Bool :=
  (s.data.length = 5 && s.data.all Char.isDigit) ||
  (s.data.length = 10 && (s.data.take 5).all Char.isDigit &&
    (s.data.drop 5).headI = '-' &&
    ((s.data.drop 5).drop 1).all Char.isDigit)

/-- Numeric value of the leading 5-digit part of a ZIP code. -/
def zipNum (s : String) : ℤ :=
  (s.data.take 5).foldl (fun a c => 10 * a + (c.toNat - 48)) 0

/-- Modelled from the spec: the distance proxy of §4.1(b) — the exact mapping
is implementation-defined ("a proxy such as numeric difference"); we take the
absolute numeric difference of the two 5-digit ZIP values, which is
deterministic and satisfies the required ordering (0 for identical codes,
small for nearby codes, large coast-to-coast).  The missing code is the body
of `getDistanceMultiplier`. -/
def distanceUnits (origin destination : String) : ℤ :=
  (zipNum origin - zipNum destination).natAbs

/-- Whether the route is local: same 3-digit ZIP code region (spec §4.1(b):
"a local shipment (same 3-digit ...)"). -/
def isLocalRoute (origin destination : String) : Bool :=
  origin.data.take 3 = destination.data.take 3

/-- Service price multiplier (source: ApiSchema.md "Service Multipliers":
Standard 1.0x, Express 1.5x, Overnight 3.0x; same values in the TS prompt
comment "standard=1x, express=1.5x, overnight=3x"). -/
def serviceMultiplier : ServiceType → ℚ
  | .standard => 1
  | .express => 3/2
  | .overnight => 3

/-- Service label and estimated delivery days, embedded from the implemented
C# helper `GetServiceDetails` of the shipping calculator exercise
(`src/unnamed/part_006`): a total match on the three-value enum, so the
`ArgumentOutOfRangeException` default branch of the C# `switch` has no
counterpart here — it is unreachable for values of the enumeration. -/
def GetServiceDetails : ServiceType → Bool → String × ℤ
  | .standard, isLocal => ("Standard Ground", if isLocal then 2 else 5)
  | .express, isLocal => ("Express Shipping", if isLocal then 1 else 3)
  | .overnight, _ => ("Overnight Express", 1)

/-- Fuel surcharge rate: 15% (source: `getCurrentFuelSurchargeRate` returns
`0.15` in both tracks — this helper is implemented in the source). -/
def getCurrentFuelSurchargeRate : ℚ := 15/100

/-- Modelled from the spec: the standard-service base rate of §4.1(c),
`round(effectiveWeightKg × 50 + distanceUnits × 10)` floored at 500 cents
(ApiSchema.md: "$0.50 per kg + $0.10 per km distance", "Minimum Cost: 500
cents"); the missing code is the body of `calculateShipping`. -/
def standardBase (r : ShippingRequest) : ℤ :=
  max (roundRat (max r.weight (calculateDimensionalWeight r.dimensions) * 50 +
        (distanceUnits r.origin r.destination : ℚ) * 10)) 500

/-- Modelled from the spec: §4.1(d), the service multiplier applied to the
standard base rate to obtain the quoted base rate (rounded to whole cents,
since `baseRateCents` is an integer in the data model). -/
def quotedBase (r : ShippingRequest) : ℤ :=
  roundRat ((standardBase r : ℚ) * serviceMultiplier r.serviceType)

/-- Modelled from the spec: §4.1(f), the insurance fee —
`round(declaredValueCents × 0.01)` when the declared value strictly exceeds
50000 cents, otherwise 0. -/
def insuranceFee (declaredValue : ℤ) : ℤ :=
  if 50000 < declaredValue then roundRat ((declaredValue : ℚ) * (1/100)) else 0

/-- Modelled from the spec: the quote assembled by the pricing phase
§4.1(a)–(g) for an already-validated request. -/
def quoteFor (r : ShippingRequest) : ShippingQuote :=
  let base := quotedBase r
  let fuel := roundRat ((base : ℚ) * getCurrentFuelSurchargeRate)
  let ins := insuranceFee r.declaredValue
  let sd := GetServiceDetails r.serviceType (isLocalRoute r.origin r.destination)
  ⟨base, fuel, ins, base + fuel + ins, sd.2, sd.1⟩

/-- Modelled from the spec: the body of `calculateShipping`, which the source
leaves as a `Not implemented` stub.  Validation order and error strings follow
spec §4.1 and the test assertions; pricing follows §4.1(a)–(g) and the
ApiSchema.md business rules.  The `serviceType ∈ enum` check (§4.1 rule 5) is
enforced by the type of `ServiceType` itself. -/
def calculateShipping (r : ShippingRequest) : ValidationResult ShippingQuote :=
  if r.weight ≤ 0 then .fail "Weight must be positive"
  else if 50 < r.weight then .fail "Package exceeds the 50kg weight limit"
  else if r.dimensions.length ≤ 0 ∨ r.dimensions.width ≤ 0 ∨ r.dimensions.height ≤ 0 then
    .fail "Dimensions must be positive"
  else if ¬ (validatePostalCode r.origin = true ∧ validatePostalCode r.destination = true) then
    .fail "Invalid postal code format"
  else
    .ok (quoteFor r)

/-- Substring test, used to state the "error contains …" assertions of the
test suite (`expect(result.error).toContain(...)`). -/
def containsSubstr (s pat : String) : Bool :=
  (List.range (s.data.length + 1)).any (fun i => pat.data.isPrefixOf (s.data.drop i))

/-- A request that passes the whole validation phase of spec §4.1. -/
def validRequest (r : ShippingRequest) : Prop :=
  0 < r.weight ∧ r.weight ≤ 50 ∧
  0 < r.dimensions.length ∧ 0 < r.dimensions.width ∧ 0 < r.dimensions.height ∧
  validatePostalCode r.origin = true ∧ validatePostalCode r.destination = true

instance (r : ShippingRequest) : Decidable (validRequest r) := by
  unfold validRequest; infer_instance


/-! ### Basic facts about rounding and the base rate -/

theorem roundRat_intCast (n : ℤ) : roundRat ((n : ℚ)) = n := by
  rw [roundRat, Int.floor_int_add]
  norm_num

theorem roundRat_mono {x y : ℚ} (h : x ≤ y) : roundRat x ≤ roundRat y :=
  Int.floor_mono (by linarith)

theorem standardBase_ge (r : ShippingRequest) : 500 ≤ standardBase r :=
  le_max_right _ _

/-- `serviceType` plays no role in the standard base rate. -/
def withService (r : ShippingRequest) (st : ServiceType) : ShippingRequest :=
  { r with serviceType := st }

theorem standardBase_withService (r : ShippingRequest) (st : ServiceType) :
    standardBase (withService r st) = standardBase r := rfl

theorem validRequest_withService (r : ShippingRequest) (st : ServiceType) :
    validRequest (withService r st) ↔ validRequest r := Iff.rfl

theorem quotedBase_withService (r : ShippingRequest) (st : ServiceType) :
    quotedBase (withService r st) = roundRat ((standardBase r : ℚ) * serviceMultiplier st) := rfl

theorem quotedBase_standard (r : ShippingRequest) :
    quotedBase (withService r .standard) = standardBase r := by
  rw [quotedBase_withService, serviceMultiplier, mul_one, roundRat_intCast]

theorem quotedBase_overnight (r : ShippingRequest) :
    quotedBase (withService r .overnight) = 3 * standardBase r := by
  rw [quotedBase_withService, serviceMultiplier,
    show ((standardBase r : ℚ)) * 3 = ((3 * standardBase r : ℤ) : ℚ) by push_cast; ring,
    roundRat_intCast]

theorem expressBase_bounds {b : ℤ} (hb : 1 ≤ b) :
    b < roundRat ((b : ℚ) * (3/2)) ∧ roundRat ((b : ℚ) * (3/2)) < 3 * b := by
  have hbq : (1 : ℚ) ≤ (b : ℚ) := by exact_mod_cast hb
  constructor
  · have : b + 1 ≤ roundRat ((b : ℚ) * (3/2)) := by
      rw [roundRat]
      apply Int.le_floor.2
      push_cast
      linarith
    omega
  · rw [roundRat]
    apply Int.floor_lt.2
    push_cast
    linarith

theorem quotedBase_express_bounds (r : ShippingRequest) :
    standardBase r < quotedBase (withService r .express) ∧
    quotedBase (withService r .express) < 3 * standardBase r := by
  rw [quotedBase_withService, serviceMultiplier]
  exact expressBase_bounds (by have := standardBase_ge r; omega)

/-- Strict monotonicity of `base + fuel + insurance` in the base. -/
theorem total_mono {x y ins : ℤ} (h : x < y) :
    x + roundRat ((x : ℚ) * getCurrentFuelSurchargeRate) + ins <
      y + roundRat ((y : ℚ) * getCurrentFuelSurchargeRate) + ins := by
  have hm : roundRat ((x : ℚ) * getCurrentFuelSurchargeRate) ≤
      roundRat ((y : ℚ) * getCurrentFuelSurchargeRate) := by
    apply roundRat_mono
    rw [getCurrentFuelSurchargeRate]
    have hxy : (x : ℚ) ≤ (y : ℚ) := by exact_mod_cast h.le
    linarith
  omega

/-! ### The validation phase, branch by branch -/

theorem calc_fail_weight {r : ShippingRequest} (h : r.weight ≤ 0) :
    calculateShipping r = .fail "Weight must be positive" := by
  rw [calculateShipping, if_pos h]

theorem calc_fail_limit {r : ShippingRequest} (h0 : 0 < r.weight) (h : 50 < r.weight) :
    calculateShipping r = .fail "Package exceeds the 50kg weight limit" := by
  rw [calculateShipping, if_neg (not_le.2 h0), if_pos h]

theorem calc_fail_dims {r : ShippingRequest} (h0 : 0 < r.weight) (h1 : r.weight ≤ 50)
    (h : r.dimensions.length ≤ 0 ∨ r.dimensions.width ≤ 0 ∨ r.dimensions.height ≤ 0) :
    calculateShipping r = .fail "Dimensions must be positive" := by
  rw [calculateShipping, if_neg (not_le.2 h0), if_neg (not_lt.2 h1), if_pos h]

theorem calc_fail_zip {r : ShippingRequest} (h0 : 0 < r.weight) (h1 : r.weight ≤ 50)
    (h2 : 0 < r.dimensions.length) (h3 : 0 < r.dimensions.width)
    (h4 : 0 < r.dimensions.height)
    (h : ¬ (validatePostalCode r.origin = true ∧ validatePostalCode r.destination = true)) :
    calculateShipping r = .fail "Invalid postal code format" := by
  rw [calculateShipping, if_neg (not_le.2 h0), if_neg (not_lt.2 h1),
    if_neg (by push_neg; exact ⟨h2, h3, h4⟩), if_pos h]

theorem calc_ok {r : ShippingRequest} (h : validRequest r) :
    calculateShipping r = .ok (quoteFor r) := by
  obtain ⟨h0, h1, h2, h3, h4, h5, h6⟩ := h
  rw [calculateShipping, if_neg (not_le.2 h0), if_neg (not_lt.2 h1),
    if_neg (by push_neg; exact ⟨h2, h3, h4⟩), if_neg (not_not_intro ⟨h5, h6⟩)]

theorem calc_ok_inv {r : ShippingRequest} {q : ShippingQuote}
    (h : calculateShipping r = .ok q) : validRequest r ∧ q = quoteFor r := by
  rw [calculateShipping] at h
  split_ifs at h with h0 h1 h2 h3
  push_neg at h0 h1 h2
  injection h with h
  exact ⟨⟨h0, h1, h2.1, h2.2.1, h2.2.2, h3.1, h3.2⟩, h.symm⟩

/-! ### Concrete requests (taken from the test specifications) -/

/-- The canonical request of the first test: 2.5kg, 30×20×15cm, NYC→LA. -/
def reqBase : ShippingRequest := ⟨5/2, ⟨30, 20, 15⟩, "10001", "90210", .standard, 5000⟩

theorem reqBase_valid : validRequest reqBase := by
  refine ⟨?_, ?_, ?_, ?_, ?_, ?_, ?_⟩ <;> first | decide | norm_num [reqBase]

theorem standardBase_reqBase : standardBase reqBase = 802215 := by
  have hd : distanceUnits "10001" "90210" = 80209 := by decide
  simp only [standardBase, reqBase, calculateDimensionalWeight, roundRat, hd]
  norm_num [max_def]

theorem quoteFor_reqBase :
    quoteFor reqBase = ⟨802215, 120332, 0, 922547, 5, "Standard Ground"⟩ := by
  have hl : isLocalRoute "10001" "90210" = false := by decide
  simp only [quoteFor, quotedBase, standardBase_reqBase]
  simp only [reqBase, serviceMultiplier, insuranceFee, getCurrentFuelSurchargeRate,
    GetServiceDetails, hl, roundRat]
  norm_num

/-- The canonical request with declared value exactly at the insurance
threshold (50000 cents). -/
def req50000 : ShippingRequest := ⟨5/2, ⟨30, 20, 15⟩, "10001", "90210", .standard, 50000⟩

/-- The canonical request with declared value one cent above the insurance
threshold. -/
def req50001 : ShippingRequest := ⟨5/2, ⟨30, 20, 15⟩, "10001", "90210", .standard, 50001⟩

theorem req50000_valid : validRequest req50000 := by
  refine ⟨?_, ?_, ?_, ?_, ?_, ?_, ?_⟩ <;> first | decide | norm_num [req50000]

theorem req50001_valid : validRequest req50001 := by
  refine ⟨?_, ?_, ?_, ?_, ?_, ?_, ?_⟩ <;> first | decide | norm_num [req50001]

theorem standardBase_req50000 : standardBase req50000 = 802215 := standardBase_reqBase

theorem standardBase_req50001 : standardBase req50001 = 802215 := standardBase_reqBase

theorem quoteFor_req50000 :
    quoteFor req50000 = ⟨802215, 120332, 0, 922547, 5, "Standard Ground"⟩ := by
  have hl : isLocalRoute "10001" "90210" = false := by decide
  simp only [quoteFor, quotedBase, standardBase_req50000]
  simp only [req50000, serviceMultiplier, insuranceFee, getCurrentFuelSurchargeRate,
    GetServiceDetails, hl, roundRat]
  norm_num

theorem quoteFor_req50001 :
    quoteFor req50001 = ⟨802215, 120332, 500, 923047, 5, "Standard Ground"⟩ := by
  have hl : isLocalRoute "10001" "90210" = false := by decide
  simp only [quoteFor, quotedBase, standardBase_req50001]
  simp only [req50001, serviceMultiplier, insuranceFee, getCurrentFuelSurchargeRate,
    GetServiceDetails, hl, roundRat]
  norm_num

/-- A standard request whose standard base rate is odd (501 cents):
10.02kg, small box, identical origin and destination. -/
def reqOddStd : ShippingRequest := ⟨501/50, ⟨10, 10, 5⟩, "10001", "10001", .standard, 0⟩

/-- The same request shipped express. -/
def reqOddExp : ShippingRequest := ⟨501/50, ⟨10, 10, 5⟩, "10001", "10001", .express, 0⟩

theorem reqOddStd_valid : validRequest reqOddStd := by
  refine ⟨?_, ?_, ?_, ?_, ?_, ?_, ?_⟩ <;> first | decide | norm_num [reqOddStd]

theorem reqOddExp_valid : validRequest reqOddExp := by
  refine ⟨?_, ?_, ?_, ?_, ?_, ?_, ?_⟩ <;> first | decide | norm_num [reqOddExp]

theorem standardBase_reqOddStd : standardBase reqOddStd = 501 := by
  have hd : distanceUnits "10001" "10001" = 0 := by decide
  simp only [standardBase, reqOddStd, calculateDimensionalWeight, roundRat, hd]
  norm_num [max_def]

theorem standardBase_reqOddExp : standardBase reqOddExp = 501 := standardBase_reqOddStd

theorem quoteFor_reqOddStd :
    quoteFor reqOddStd = ⟨501, 75, 0, 576, 2, "Standard Ground"⟩ := by
  have hl : isLocalRoute "10001" "10001" = true := by decide
  simp only [quoteFor, quotedBase, standardBase_reqOddStd]
  simp only [reqOddStd, serviceMultiplier, insuranceFee, getCurrentFuelSurchargeRate,
    GetServiceDetails, hl, roundRat]
  norm_num

theorem quoteFor_reqOddExp :
    quoteFor reqOddExp = ⟨752, 113, 0, 865, 1, "Express Shipping"⟩ := by
  have hl : isLocalRoute "10001" "10001" = true := by decide
  simp only [quoteFor, quotedBase, standardBase_reqOddExp]
  simp only [reqOddExp, serviceMultiplier, insuranceFee, getCurrentFuelSurchargeRate,
    GetServiceDetails, hl, roundRat]
  norm_num

/-- A local-route request (10001 → 10002, same 3-digit region), express. -/
def reqLocalExp : ShippingRequest := ⟨2, ⟨20, 20, 10⟩, "10001", "10002", .express, 4000⟩

/-- The same local-route request, overnight. -/
def reqLocalOvn : ShippingRequest := ⟨2, ⟨20, 20, 10⟩, "10001", "10002", .overnight, 4000⟩

theorem reqLocalExp_valid : validRequest reqLocalExp := by
  refine ⟨?_, ?_, ?_, ?_, ?_, ?_, ?_⟩ <;> decide

theorem reqLocalOvn_valid : validRequest reqLocalOvn := by
  refine ⟨?_, ?_, ?_, ?_, ?_, ?_, ?_⟩ <;> decide

theorem standardBase_reqLocalExp : standardBase reqLocalExp = 500 := by
  have hd : distanceUnits "10001" "10002" = 1 := by decide
  simp only [standardBase, reqLocalExp, calculateDimensionalWeight, roundRat, hd]
  norm_num [max_def]

theorem standardBase_reqLocalOvn : standardBase reqLocalOvn = 500 := standardBase_reqLocalExp

theorem quoteFor_reqLocalExp :
    quoteFor reqLocalExp = ⟨750, 113, 0, 863, 1, "Express Shipping"⟩ := by
  have hl : isLocalRoute "10001" "10002" = true := by decide
  simp only [quoteFor, quotedBase, standardBase_reqLocalExp]
  simp only [reqLocalExp, serviceMultiplier, insuranceFee, getCurrentFuelSurchargeRate,
    GetServiceDetails, hl, roundRat]
  norm_num

theorem quoteFor_reqLocalOvn :
    quoteFor reqLocalOvn = ⟨1500, 225, 0, 1725, 1, "Overnight Express"⟩ := by
  have hl : isLocalRoute "10001" "10002" = true := by decide
  simp only [quoteFor, quotedBase, standardBase_reqLocalOvn]
  simp only [reqLocalOvn, serviceMultiplier, insuranceFee, getCurrentFuelSurchargeRate,
    GetServiceDetails, hl, roundRat]
  norm_num

/-- The large-but-light package of the dimensional-weight test: 1kg,
50×40×30cm (dimensional weight 12kg). -/
def reqBulky : ShippingRequest := ⟨1, ⟨50, 40, 30⟩, "10001", "90210", .standard, 3000⟩

/-- The small package on the same route: 1kg, 10×10×5cm. -/
def reqDense : ShippingRequest := ⟨1, ⟨10, 10, 5⟩, "10001", "90210", .standard, 3000⟩

theorem reqBulky_valid : validRequest reqBulky := by
  refine ⟨?_, ?_, ?_, ?_, ?_, ?_, ?_⟩ <;> decide

theorem reqDense_valid : validRequest reqDense := by
  refine ⟨?_, ?_, ?_, ?_, ?_, ?_, ?_⟩ <;> decide

theorem standardBase_reqBulky : standardBase reqBulky = 802690 := by
  have hd : distanceUnits "10001" "90210" = 80209 := by decide
  simp only [standardBase, reqBulky, calculateDimensionalWeight, roundRat, hd]
  norm_num [max_def]

theorem standardBase_reqDense : standardBase reqDense = 802140 := by
  have hd : distanceUnits "10001" "90210" = 80209 := by decide
  simp only [standardBase, reqDense, calculateDimensionalWeight, roundRat, hd]
  norm_num [max_def]

theorem quoteFor_reqBulky :
    quoteFor reqBulky = ⟨802690, 120404, 0, 923094, 5, "Standard Ground"⟩ := by
  have hl : isLocalRoute "10001" "90210" = false := by decide
  simp only [quoteFor, quotedBase, standardBase_reqBulky]
  simp only [reqBulky, serviceMultiplier, insuranceFee, getCurrentFuelSurchargeRate,
    GetServiceDetails, hl, roundRat]
  norm_num

theorem quoteFor_reqDense :
    quoteFor reqDense = ⟨802140, 120321, 0, 922461, 5, "Standard Ground"⟩ := by
  have hl : isLocalRoute "10001" "90210" = false := by decide
  simp only [quoteFor, quotedBase, standardBase_reqDense]
  simp only [reqDense, serviceMultiplier, insuranceFee, getCurrentFuelSurchargeRate,
    GetServiceDetails, hl, roundRat]
  norm_num

/-- The boundary request of the weight tests: exactly 50kg. -/
def req50 : ShippingRequest := ⟨50, ⟨30, 20, 15⟩, "10001", "90210", .standard, 5000⟩

/-- The boundary request just over the limit: 50.01kg. -/
def req5001w : ShippingRequest := ⟨5001/100, ⟨30, 20, 15⟩, "10001", "90210", .standard, 5000⟩

/-- The zero-weight request. -/
def req0w : ShippingRequest := ⟨0, ⟨20, 15, 10⟩, "10001", "90210", .standard, 3000⟩

/-- The negative-weight request of the validation test. -/
def reqNegw : ShippingRequest := ⟨-1, ⟨20, 15, 10⟩, "10001", "90210", .standard, 3000⟩

/-- Negative weight AND invalid origin at once: the ordering example. -/
def reqC6 : ShippingRequest := ⟨-1, ⟨20, 15, 10⟩, "INVALID", "90210", .standard, 3000⟩

/-- The zero-dimension request of the validation test. -/
def reqDimsBad : ShippingRequest := ⟨2, ⟨0, 15, 10⟩, "10001", "90210", .standard, 3000⟩

theorem req50_valid : validRequest req50 := by
  refine ⟨?_, ?_, ?_, ?_, ?_, ?_, ?_⟩ <;> decide

/-- A second negative-weight request, used to witness the weight rule. -/
def reqNeg2 : ShippingRequest := ⟨-2, ⟨20, 15, 10⟩, "10001", "90210", .standard, 3000⟩

theorem GetServiceDetails_days_order (b : Bool) :
    (GetServiceDetails .overnight b).2 ≤ (GetServiceDetails .express b).2 ∧
    (GetServiceDetails .express b).2 ≤ (GetServiceDetails .standard b).2 := by
  cases b <;> exact ⟨by decide, by decide⟩

/-! ### Claim theorems -/

/-- **C1.** For every `ShippingRequest`, `calculateShipping` returns a value
of the `ValidationResult` tagged union — success carrying a `ShippingQuote`
or failure carrying an error string; as a total function into that type it
never escapes by exception. -/
theorem C1_result_type_total (r : ShippingRequest) :
    (∃ q : ShippingQuote, calculateShipping r = .ok q) ∨
    (∃ e : String, calculateShipping r = .fail e) := by
  cases h : calculateShipping r
  · exact .inl ⟨_, rfl⟩
  · exact .inr ⟨_, rfl⟩

/-- **C2.** Every successful quote satisfies
`totalCost = baseRate + fuelSurcharge + insuranceFee`. -/
theorem C2_total_additive {r : ShippingRequest} {q : ShippingQuote}
    (h : calculateShipping r = .ok q) :
    q.totalCost = q.baseRate + q.fuelSurcharge + q.insuranceFee := by
  obtain ⟨-, rfl⟩ := calc_ok_inv h
  rfl

theorem C2_witness :
    (quoteFor reqBase).totalCost =
      (quoteFor reqBase).baseRate + (quoteFor reqBase).fuelSurcharge +
        (quoteFor reqBase).insuranceFee :=
  C2_total_additive (calc_ok reqBase_valid)

/-- **C3 (counterexample).** The express base rate is NOT exactly 1.5 times
the standard base rate when the standard base rate is odd: at 10.02kg with a
small box and identical origin/destination the standard base rate is 501
cents while the express base rate is 752 = round(751.5), and 752 ≠ 1.5 × 501. -/
theorem C3_counterexample :
    calculateShipping reqOddStd = .ok ⟨501, 75, 0, 576, 2, "Standard Ground"⟩ ∧
    calculateShipping reqOddExp = .ok ⟨752, 113, 0, 865, 1, "Express Shipping"⟩ ∧
    ¬ ((752 : ℚ) = (3/2) * 501) := by
  refine ⟨?_, ?_, by norm_num⟩
  · rw [calc_ok reqOddStd_valid, quoteFor_reqOddStd]
  · rw [calc_ok reqOddExp_valid, quoteFor_reqOddExp]

/-- **C3 (amended).** For any two valid requests identical except for
`serviceType`, the express base rate equals `round(1.5 ×)` the standard base
rate (exact whenever the product is a whole number of cents), and the
overnight base rate equals exactly 3.0 times (not 2.0 times) the standard
base rate; the multiplier is applied to the standard base rate. -/
theorem C3_service_multipliers (r : ShippingRequest) (h : validRequest r) :
    calculateShipping (withService r .standard) = .ok (quoteFor (withService r .standard)) ∧
    calculateShipping (withService r .express) = .ok (quoteFor (withService r .express)) ∧
    calculateShipping (withService r .overnight) = .ok (quoteFor (withService r .overnight)) ∧
    (quoteFor (withService r .standard)).baseRate = standardBase r ∧
    (quoteFor (withService r .express)).baseRate =
      roundRat (((quoteFor (withService r .standard)).baseRate : ℚ) * (3/2)) ∧
    (quoteFor (withService r .overnight)).baseRate =
      3 * (quoteFor (withService r .standard)).baseRate := by
  have hqs : (quoteFor (withService r .standard)).baseRate = standardBase r :=
    quotedBase_standard r
  refine ⟨calc_ok h, calc_ok h, calc_ok h, hqs, ?_, ?_⟩
  · rw [hqs]
    rfl
  · rw [hqs]
    exact quotedBase_overnight r

theorem C3_witness :
    (quoteFor (withService reqBase ServiceType.overnight)).baseRate =
      3 * (quoteFor (withService reqBase ServiceType.standard)).baseRate :=
  (C3_service_multipliers reqBase reqBase_valid).2.2.2.2.2

/-- **C4 (counterexample).** On a local route (identical 3-digit region,
here 10001 → 10002) the overnight and express estimated days are both 1, so
`estimatedDays(overnight) < estimatedDays(express)` fails. -/
theorem C4_counterexample :
    calculateShipping reqLocalExp = .ok ⟨750, 113, 0, 863, 1, "Express Shipping"⟩ ∧
    calculateShipping reqLocalOvn = .ok ⟨1500, 225, 0, 1725, 1, "Overnight Express"⟩ ∧
    ¬ ((ShippingQuote.mk 1500 225 0 1725 1 "Overnight Express").estimatedDays <
        (ShippingQuote.mk 750 113 0 863 1 "Express Shipping").estimatedDays) := by
  refine ⟨?_, ?_, by decide⟩
  · rw [calc_ok reqLocalExp_valid, quoteFor_reqLocalExp]
  · rw [calc_ok reqLocalOvn_valid, quoteFor_reqLocalOvn]

/-- **C4 (amended).** For identical valid request contents except
`serviceType`: overnight total > express total > standard total, and
`estimatedDays(overnight) ≤ estimatedDays(express) ≤ estimatedDays(standard)`
(the first inequality is not strict: on local routes both are 1 day). -/
theorem C4_service_ordering (r : ShippingRequest) (h : validRequest r) :
    calculateShipping (withService r .standard) = .ok (quoteFor (withService r .standard)) ∧
    calculateShipping (withService r .express) = .ok (quoteFor (withService r .express)) ∧
    calculateShipping (withService r .overnight) = .ok (quoteFor (withService r .overnight)) ∧
    (quoteFor (withService r .standard)).totalCost <
      (quoteFor (withService r .express)).totalCost ∧
    (quoteFor (withService r .express)).totalCost <
      (quoteFor (withService r .overnight)).totalCost ∧
    (quoteFor (withService r .overnight)).estimatedDays ≤
      (quoteFor (withService r .express)).estimatedDays ∧
    (quoteFor (withService r .express)).estimatedDays ≤
      (quoteFor (withService r .standard)).estimatedDays := by
  have h1 : quotedBase (withService r .standard) < quotedBase (withService r .express) := by
    rw [quotedBase_standard]
    exact (quotedBase_express_bounds r).1
  have h2 : quotedBase (withService r .express) < quotedBase (withService r .overnight) := by
    rw [quotedBase_overnight]
    exact (quotedBase_express_bounds r).2
  exact ⟨calc_ok h, calc_ok h, calc_ok h, total_mono h1, total_mono h2,
    (GetServiceDetails_days_order _).1, (GetServiceDetails_days_order _).2⟩

theorem C4_witness :
    (quoteFor (withService reqBase ServiceType.standard)).totalCost <
      (quoteFor (withService reqBase ServiceType.express)).totalCost :=
  (C4_service_ordering reqBase reqBase_valid).2.2.2.1

/-- **C5.** `weightKg = 50` succeeds; any weight strictly above 50 fails
with the weight-limit error (in particular 50.01); any weight ≤ 0 fails with
"Weight must be positive" (in particular 0 and −1). -/
theorem C5_weight_boundaries :
    (∀ r : ShippingRequest, r.weight ≤ 0 →
      calculateShipping r = .fail "Weight must be positive") ∧
    (∀ r : ShippingRequest, 0 < r.weight → 50 < r.weight →
      calculateShipping r = .fail "Package exceeds the 50kg weight limit") ∧
    containsSubstr "Package exceeds the 50kg weight limit" "weight limit" = true ∧
    calculateShipping req50 = .ok (quoteFor req50) ∧
    calculateShipping req5001w = .fail "Package exceeds the 50kg weight limit" ∧
    calculateShipping req0w = .fail "Weight must be positive" ∧
    calculateShipping reqNegw = .fail "Weight must be positive" := by
  refine ⟨fun r h => calc_fail_weight h, fun r h0 h => calc_fail_limit h0 h, by decide,
    calc_ok req50_valid, ?_, ?_, ?_⟩
  · exact calc_fail_limit (by norm_num [req5001w]) (by norm_num [req5001w])
  · exact calc_fail_weight (by norm_num [req0w])
  · exact calc_fail_weight (by norm_num [reqNegw])

theorem C5_witness : calculateShipping reqNeg2 = .fail "Weight must be positive" :=
  C5_weight_boundaries.1 reqNeg2 (by norm_num [reqNeg2])

/-- **C6.** The validation checks run in the fixed order weight-positive,
weight-limit, dimensions, postal codes; the first failing check determines
the error (a request with negative weight and invalid origin reports the
weight error), and no pricing result is produced for any invalid request
(success implies every validation passed). -/
theorem C6_validation_order :
    (∀ r : ShippingRequest, r.weight ≤ 0 →
      calculateShipping r = .fail "Weight must be positive") ∧
    (∀ r : ShippingRequest, 0 < r.weight → 50 < r.weight →
      calculateShipping r = .fail "Package exceeds the 50kg weight limit") ∧
    (∀ r : ShippingRequest, 0 < r.weight → r.weight ≤ 50 →
      (r.dimensions.length ≤ 0 ∨ r.dimensions.width ≤ 0 ∨ r.dimensions.height ≤ 0) →
      calculateShipping r = .fail "Dimensions must be positive") ∧
    (∀ r : ShippingRequest, 0 < r.weight → r.weight ≤ 50 →
      0 < r.dimensions.length → 0 < r.dimensions.width → 0 < r.dimensions.height →
      ¬ (validatePostalCode r.origin = true ∧ validatePostalCode r.destination = true) →
      calculateShipping r = .fail "Invalid postal code format") ∧
    calculateShipping reqC6 = .fail "Weight must be positive" ∧
    (∀ (r : ShippingRequest) (q : ShippingQuote),
      calculateShipping r = .ok q → validRequest r) := by
  refine ⟨fun r h => calc_fail_weight h, fun r h0 h => calc_fail_limit h0 h,
    fun r h0 h1 h => calc_fail_dims h0 h1 h,
    fun r h0 h1 h2 h3 h4 h => calc_fail_zip h0 h1 h2 h3 h4 h,
    calc_fail_weight (by norm_num [reqC6]),
    fun r q h => (calc_ok_inv h).1⟩

theorem C6_witness : calculateShipping reqDimsBad = .fail "Dimensions must be positive" :=
  C6_validation_order.2.2.1 reqDimsBad (by norm_num [reqDimsBad])
    (by norm_num [reqDimsBad]) (Or.inl (by norm_num [reqDimsBad]))

/-- **C7.** The quoted base rate is computed from the effective weight
`max(actualWeightKg, L×W×H/5000)`; in particular the 1kg 50×40×30 package
costs strictly more than the 1kg 10×10×5 package on the same route and
service. -/
theorem C7_effective_weight :
    (∀ r : ShippingRequest, (quoteFor r).baseRate =
      roundRat (((max (roundRat (max r.weight
          (r.dimensions.length * r.dimensions.width * r.dimensions.height / 5000) * 50 +
          (distanceUnits r.origin r.destination : ℚ) * 10)) 500 : ℤ) : ℚ) *
        serviceMultiplier r.serviceType)) ∧
    calculateShipping reqBulky = .ok ⟨802690, 120404, 0, 923094, 5, "Standard Ground"⟩ ∧
    calculateShipping reqDense = .ok ⟨802140, 120321, 0, 922461, 5, "Standard Ground"⟩ ∧
    (ShippingQuote.mk 802140 120321 0 922461 5 "Standard Ground").totalCost <
      (ShippingQuote.mk 802690 120404 0 923094 5 "Standard Ground").totalCost := by
  refine ⟨fun r => rfl, ?_, ?_, by decide⟩
  · rw [calc_ok reqBulky_valid, quoteFor_reqBulky]
  · rw [calc_ok reqDense_valid, quoteFor_reqDense]

/-- **C8.** Every successful quote's insurance fee is
`round(declaredValueCents × 0.01)` exactly when `declaredValueCents > 50000`
and `0` otherwise; the threshold is strict: 50000 gives fee 0, 50001 gives a
positive fee. -/
theorem C8_insurance_threshold :
    (∀ (r : ShippingRequest) (q : ShippingQuote), calculateShipping r = .ok q →
      q.insuranceFee = if 50000 < r.declaredValue
        then roundRat ((r.declaredValue : ℚ) * (1/100)) else 0) ∧
    calculateShipping req50000 = .ok ⟨802215, 120332, 0, 922547, 5, "Standard Ground"⟩ ∧
    calculateShipping req50001 = .ok ⟨802215, 120332, 500, 923047, 5, "Standard Ground"⟩ ∧
    (0 : ℤ) < (ShippingQuote.mk 802215 120332 500 923047 5 "Standard Ground").insuranceFee := by
  refine ⟨?_, ?_, ?_, by decide⟩
  · intro r q h
    obtain ⟨-, rfl⟩ := calc_ok_inv h
    rfl
  · rw [calc_ok req50000_valid, quoteFor_req50000]
  · rw [calc_ok req50001_valid, quoteFor_req50001]

theorem C8_witness :
    (quoteFor reqBase).insuranceFee = if 50000 < reqBase.declaredValue
      then roundRat ((reqBase.declaredValue : ℚ) * (1/100)) else 0 :=
  C8_insurance_threshold.1 reqBase (quoteFor reqBase) (calc_ok reqBase_valid)

/-- **C9.** `GetServiceDetails` is total on the three service types and both
locality flags (the C# default `throw` branch is unreachable for enum
values): the estimated days are positive and exactly 2/5 (standard,
local/non-local), 1/3 (express), 1 (overnight), and the label is one of the
three documented strings. -/
theorem C9_GetServiceDetails_safe (st : ServiceType) (b : Bool) :
    0 < (GetServiceDetails st b).2 ∧
    ((GetServiceDetails st b).1 = "Standard Ground" ∨
      (GetServiceDetails st b).1 = "Express Shipping" ∨
      (GetServiceDetails st b).1 = "Overnight Express") ∧
    (GetServiceDetails st b).2 =
      (match st with
        | .standard => if b then 2 else 5
        | .express => if b then 1 else 3
        | .overnight => 1) := by
  cases st <;> cases b <;> exact ⟨by decide, by decide, by decide⟩
